import Mathlib

/-!
Verification development for the stock scoring advisor scoring and advisory
pipeline. Numeric values are modelled as rationals; Python dicts carrying a
fixed set of keys are modelled as structures; Python `None` / missing keys
are modelled with `Option`; the output dict literals of the sentiment
aggregator are modelled as association lists so that the exact key set is
visible. All definitions are translated from the repository source
(src/config.py, src/modules/scoring.py, src/modules/technical.py,
src/modules/fundamental.py, src/modules/news.py, src/modules/advisory.py).
-/

namespace StockAdvisor

/-! ### Configuration constants (src/config.py) -/

def RSI_OVERBOUGHT : ℚ := 70

def RSI_OVERSOLD : ℚ := 30

def TECHNICAL_WEIGHT : ℚ := 0.4

def FUNDAMENTAL_WEIGHT : ℚ := 0.4

def NEWS_SENTIMENT_WEIGHT : ℚ := 0.2

def BUY_THRESHOLD : ℚ := 7.0

def SELL_THRESHOLD : ℚ := 4.0

def HOLD_THRESHOLD : ℚ := 5.5

/-! ### Rounding (the Python round built-in: round half to even) -/

/-- Python round to the nearest integer: round half to even. -/
def pyRoundInt (q : ℚ) : ℤ :=
  let f := ⌊q⌋
  let r := q - f
  if r < 1/2 then f
  else if 1/2 < r then f + 1
  else if f % 2 = 0 then f else f + 1

/-- Python round to one decimal place. -/
def pyRound1 (q : ℚ) : ℚ := (pyRoundInt (q * 10) : ℚ) / 10

/-! ### Composite scorer (src/modules/scoring.py, `calculate_overall_score`) -/

/-- Embeds calculate_overall_score: weighted sum of the three sub-scores with the
configured weights, rounded to one decimal place. -/
def calculate_overall_score (technical_score fundamental_score news_sentiment_score : ℚ) : ℚ :=
  let weighted_score :=
    technical_score * TECHNICAL_WEIGHT +
    fundamental_score * FUNDAMENTAL_WEIGHT +
    news_sentiment_score * NEWS_SENTIMENT_WEIGHT
  pyRound1 weighted_score

/-! ### Technical indicators (src/modules/technical.py) -/

/-- The IndicatorSet dict returned by `calculate_technical_indicators`:
all keys are always set when the dict is non-empty. -/
structure TechnicalIndicators where
  rsi : ℚ
  macd : ℚ
  macd_signal : ℚ
  macd_histogram : ℚ
  ma_short : ℚ
  ma_long : ℚ
  upper_band : ℚ
  lower_band : ℚ
  adx : ℚ
  volatility : ℚ
  recent_performance : ℚ
  is_uptrend : Bool
  is_overbought : Bool
  is_oversold : Bool
  macd_bullish_cross : Bool
  macd_bearish_cross : Bool
  near_support : Bool
  near_resistance : Bool
  strong_trend : Bool
  high_volume : Bool
deriving DecidableEq

/-- MACD bullish-cross test of `calculate_technical_indicators`, taken over the
MACD line and signal line values at the second-to-last and last bar. -/
def macd_bull_cross (macd_prev signal_prev macd_last signal_last : ℚ) : Bool :=
  decide (macd_prev < signal_prev) && decide (macd_last > signal_last)

/-- MACD bearish-cross test of `calculate_technical_indicators`. -/
def macd_bear_cross (macd_prev signal_prev macd_last signal_last : ℚ) : Bool :=
  decide (macd_prev > signal_prev) && decide (macd_last < signal_last)

/-! `analyze_technical` (src/modules/technical.py, lines 112-179): the body is
a sequence of score adjustments; each block of the Python function is one step
function here, composed in the source order. -/

def rsiStep (score rsi : ℚ) : ℚ :=
  if rsi < 30 then score + 1.0 else if rsi > 70 then score - 1.0 else score

def macdBullStep (score : ℚ) (cross : Bool) : ℚ :=
  if cross then score + 1.0 else score

def macdBearStep (score : ℚ) (cross : Bool) : ℚ :=
  if cross then score - 1.0 else score

def trendStep (score : ℚ) (uptrend : Bool) : ℚ :=
  if uptrend then score + 0.75 else score - 0.75

def supportStep (score : ℚ) (near : Bool) : ℚ :=
  if near then score + 0.5 else score

def resistanceStep (score : ℚ) (near : Bool) : ℚ :=
  if near then score - 0.5 else score

def adxStep (score adx : ℚ) (uptrend : Bool) : ℚ :=
  if adx > 25 then (if uptrend then score + 0.5 else score - 0.5) else score

def perfStep (score recent_perf : ℚ) : ℚ :=
  if recent_perf > 0 then score + 0.25 * min recent_perf 2
  else score - 0.25 * min |recent_perf| 2

def volumeStep (score : ℚ) (high_volume uptrend : Bool) : ℚ :=
  if high_volume then (if uptrend then score + 0.5 else score - 0.5) else score

/-- Embeds analyze_technical: here `none` stands for a missing or empty (falsy) indicator
dict, which returns `0.0`; otherwise the score starts at the neutral `5.0`,
the adjustment blocks run in source order, and the result is
`max(0, min(score, 10))`. -/
def analyze_technical : Option TechnicalIndicators → ℚ
  | none => 0.0
  | some t =>
    let score : ℚ := 5.0
    let score := rsiStep score t.rsi
    let score := macdBullStep score t.macd_bullish_cross
    let score := macdBearStep score t.macd_bearish_cross
    let score := trendStep score t.is_uptrend
    let score := supportStep score t.near_support
    let score := resistanceStep score t.near_resistance
    let score := adxStep score t.adx t.is_uptrend
    let score := perfStep score t.recent_performance
    let score := volumeStep score t.high_volume t.is_uptrend
    max 0 (min score 10)

/-- Specification-side form of the technical rules: the sum of the independent
adjustments listed in the table of the spec. -/
def techAdjustments (t : TechnicalIndicators) : ℚ :=
  (if t.rsi < 30 then 1.0 else 0) +
  (if t.rsi > 70 then -1.0 else 0) +
  (if t.macd_bullish_cross then 1.0 else 0) +
  (if t.macd_bearish_cross then -1.0 else 0) +
  (if t.is_uptrend then 0.75 else -0.75) +
  (if t.near_support then 0.5 else 0) +
  (if t.near_resistance then -0.5 else 0) +
  (if t.adx > 25 ∧ t.is_uptrend then 0.5 else 0) +
  (if t.adx > 25 ∧ ¬(t.is_uptrend = true) then -0.5 else 0) +
  (if t.recent_performance > 0 then 0.25 * min t.recent_performance 2
   else -(0.25 * min |t.recent_performance| 2)) +
  (if t.high_volume ∧ t.is_uptrend then 0.5 else 0) +
  (if t.high_volume ∧ ¬(t.is_uptrend = true) then -0.5 else 0)

/-! ### Fundamental data (src/modules/stock_data.py `get_fundamental_data`,
src/modules/fundamental.py `analyze_fundamental`) -/

/-- The FundamentalsRecord dict: every metric individually optional
(Python `None` for an unknown value). -/
structure FundamentalData where
  trailing_pe : Option ℚ
  forward_pe : Option ℚ
  price_to_book : Option ℚ
  eps : Option ℚ
  roe : Option ℚ
  profit_margins : Option ℚ
  dividend_yield : Option ℚ
  debt_to_equity : Option ℚ
  current_ratio : Option ℚ
  quick_ratio : Option ℚ
  beta : Option ℚ
deriving DecidableEq

/-! Each `if <metric> is not None:` block of `analyze_fundamental` is one step
function, composed in the source order. -/

def peStep (score : ℚ) : Option ℚ → ℚ
  | none => score
  | some pe =>
    if pe < 0 then score - 0.5
    else if pe < 15 then score + 1.0
    else if pe > 30 then score - 0.5
    else score

def forwardPeStep (score : ℚ) : Option ℚ → Option ℚ → ℚ
  | some forward_pe, some pe =>
    if forward_pe < pe then score + 0.5
    else if forward_pe > pe then score - 0.5
    else score
  | _, _ => score

def pbStep (score : ℚ) : Option ℚ → ℚ
  | none => score
  | some pb =>
    if pb < 1.0 then score + 0.75
    else if pb > 5.0 then score - 0.5
    else score

def roeStep (score : ℚ) : Option ℚ → ℚ
  | none => score
  | some roe =>
    if roe > 0.15 then score + 1.0
    else if roe < 0.05 then score - 0.75
    else score

def marginStep (score : ℚ) : Option ℚ → ℚ
  | none => score
  | some profit_margins =>
    if profit_margins > 0.15 then score + 0.75
    else if profit_margins < 0.05 then score - 0.5
    else score

def divYieldStep (score : ℚ) : Option ℚ → ℚ
  | none => score
  | some div_yield =>
    if div_yield > 0.04 then score + 0.5
    else if div_yield > 0 ∧ div_yield < 0.01 then score - 0.25
    else score

def debtStep (score : ℚ) : Option ℚ → ℚ
  | none => score
  | some debt_to_equity =>
    if debt_to_equity > 2.0 then score - 1.0
    else if debt_to_equity < 0.5 then score + 0.75
    else score

def currentRatioStep (score : ℚ) : Option ℚ → ℚ
  | none => score
  | some current_ratio =>
    if current_ratio < 1.0 then score - 0.75
    else if current_ratio > 2.0 then score + 0.5
    else score

def betaStep (score : ℚ) : Option ℚ → ℚ
  | none => score
  | some beta =>
    if beta > 1.5 then score - 0.25
    else if beta < 0.8 then score + 0.25
    else score

/-- Embeds analyze_fundamental: here `none` stands for a missing or empty (falsy)
fundamentals dict, which yields the neutral `5.0`; otherwise the score starts
at `5.0`, each metric block runs in source order, and the result is
`max(0, min(score, 10))`. -/
def analyze_fundamental : Option FundamentalData → ℚ
  | none => 5.0
  | some d =>
    let score : ℚ := 5.0
    let score := peStep score d.trailing_pe
    let score := forwardPeStep score d.forward_pe d.trailing_pe
    let score := pbStep score d.price_to_book
    let score := roeStep score d.roe
    let score := marginStep score d.profit_margins
    let score := divYieldStep score d.dividend_yield
    let score := debtStep score d.debt_to_equity
    let score := currentRatioStep score d.current_ratio
    let score := betaStep score d.beta
    max 0 (min score 10)

/-! Specification-side form of the fundamental rules: one contribution per
metric, zero when the metric is absent. -/

def peContrib : Option ℚ → ℚ
  | none => 0
  | some pe => if pe < 0 then -0.5 else if pe < 15 then 1.0 else if pe > 30 then -0.5 else 0

def forwardPeContrib : Option ℚ → Option ℚ → ℚ
  | some forward_pe, some pe =>
    if forward_pe < pe then 0.5 else if forward_pe > pe then -0.5 else 0
  | _, _ => 0

def pbContrib : Option ℚ → ℚ
  | none => 0
  | some pb => if pb < 1.0 then 0.75 else if pb > 5.0 then -0.5 else 0

def roeContrib : Option ℚ → ℚ
  | none => 0
  | some roe => if roe > 0.15 then 1.0 else if roe < 0.05 then -0.75 else 0

def marginContrib : Option ℚ → ℚ
  | none => 0
  | some pm => if pm > 0.15 then 0.75 else if pm < 0.05 then -0.5 else 0

def divYieldContrib : Option ℚ → ℚ
  | none => 0
  | some y => if y > 0.04 then 0.5 else if y > 0 ∧ y < 0.01 then -0.25 else 0

def debtContrib : Option ℚ → ℚ
  | none => 0
  | some de => if de > 2.0 then -1.0 else if de < 0.5 then 0.75 else 0

def currentRatioContrib : Option ℚ → ℚ
  | none => 0
  | some cr => if cr < 1.0 then -0.75 else if cr > 2.0 then 0.5 else 0

def betaContrib : Option ℚ → ℚ
  | none => 0
  | some b => if b > 1.5 then -0.25 else if b < 0.8 then 0.25 else 0

def fundAdjustments (d : FundamentalData) : ℚ :=
  peContrib d.trailing_pe +
  forwardPeContrib d.forward_pe d.trailing_pe +
  pbContrib d.price_to_book +
  roeContrib d.roe +
  marginContrib d.profit_margins +
  divYieldContrib d.dividend_yield +
  debtContrib d.debt_to_equity +
  currentRatioContrib d.current_ratio +
  betaContrib d.beta

/-! ### Sentiment aggregator (src/modules/news.py, `analyze_sentiment`) -/

/-- An input news article as built by `get_news`. -/
structure NewsArticle where
  title : String
  description : String
  url : String
  published_at : String
  source : String
deriving DecidableEq

/-- A Python dict value appearing in a scored-article dict: either a string
or a number. -/
inductive Val where
  | str : String → Val
  | num : ℚ → Val
deriving DecidableEq

/-- The result dict of `analyze_sentiment`. -/
structure SentimentSummary where
  articles : List (List (String × Val))
  average_sentiment : ℚ
  sentiment_score : ℚ
  positive : ℕ
  negative : ℕ
  neutral : ℕ
deriving DecidableEq

/-- The text handed to the sentiment analyzer for one article: the title,
a space, then the description. -/
def articleText (article : NewsArticle) : String :=
  article.title ++ " " ++ article.description

/-- The `article_with_sentiment` dict literal built inside the loop of
`analyze_sentiment`, with its exact keys in source order. -/
def articleWithSentiment (article : NewsArticle) (sentiment : String) (compound : ℚ) :
    List (String × Val) :=
  [("title", Val.str article.title),
   ("url", Val.str article.url),
   ("published_at", Val.str article.published_at),
   ("source", Val.str article.source),
   ("sentiment", Val.str sentiment),
   ("sentiment_score", Val.num compound)]

/-- The running state of the `for article in news_articles:` loop. -/
structure SentimentLoopState where
  sentiment_results : List (List (String × Val))
  compound_scores : List ℚ
  positive : ℕ
  negative : ℕ
  neutral : ℕ

/-- One iteration of the loop: compute the compound polarity of the combined
text, classify it, bump the matching counter and append the scored dict.
Here `polarity` stands for the compound score of the external lexicon
sentiment collaborator. -/
def processArticle (polarity : String → ℚ) (st : SentimentLoopState)
    (article : NewsArticle) : SentimentLoopState :=
  let compound := polarity (articleText article)
  if compound ≥ 0.05 then
    { st with
      sentiment_results :=
        st.sentiment_results ++ [articleWithSentiment article "positive" compound],
      compound_scores := st.compound_scores ++ [compound],
      positive := st.positive + 1 }
  else if compound ≤ -0.05 then
    { st with
      sentiment_results :=
        st.sentiment_results ++ [articleWithSentiment article "negative" compound],
      compound_scores := st.compound_scores ++ [compound],
      negative := st.negative + 1 }
  else
    { st with
      sentiment_results :=
        st.sentiment_results ++ [articleWithSentiment article "neutral" compound],
      compound_scores := st.compound_scores ++ [compound],
      neutral := st.neutral + 1 }

/-- Embeds analyze_sentiment: an empty list short-circuits to the neutral summary;
otherwise run the loop, average the compound scores and map the average
linearly onto the 0-10 scale. -/
def analyze_sentiment (polarity : String → ℚ) (news_articles : List NewsArticle) :
    SentimentSummary :=
  if news_articles.isEmpty then
    { articles := [], average_sentiment := 0, sentiment_score := 5.0,
      positive := 0, negative := 0, neutral := 0 }
  else
    let st := news_articles.foldl (processArticle polarity)
      { sentiment_results := [], compound_scores := [],
        positive := 0, negative := 0, neutral := 0 }
    let avg_sentiment :=
      if st.compound_scores.isEmpty then 0
      else st.compound_scores.sum / (st.compound_scores.length : ℚ)
    let sentiment_score := 5 + avg_sentiment * 5
    { articles := st.sentiment_results, average_sentiment := avg_sentiment,
      sentiment_score := sentiment_score, positive := st.positive,
      negative := st.negative, neutral := st.neutral }

/-- Specification-side per-article categorisation rule. -/
def categorize (compound : ℚ) : String :=
  if compound ≥ 0.05 then "positive"
  else if compound ≤ -0.05 then "negative"
  else "neutral"

/-- Specification-side scored article: the dict one article produces. -/
def scoreArticle (polarity : String → ℚ) (article : NewsArticle) : List (String × Val) :=
  articleWithSentiment article (categorize (polarity (articleText article)))
    (polarity (articleText article))

/-! ### Advisory engine (src/modules/advisory.py, `get_investment_advice`) -/

/-- The advice dict: a recommendation string and an ordered rationale list. -/
structure Advice where
  recommendation : String
  rationale : List String
deriving DecidableEq

/-- The score-based base recommendation: first true branch of the
`if / elif / elif` chain wins, default `"HOLD"`. -/
def baseRecommendation (overall_score : ℚ) : String :=
  if overall_score ≥ BUY_THRESHOLD then "BUY"
  else if overall_score ≤ SELL_THRESHOLD then "SELL"
  else if overall_score < HOLD_THRESHOLD then "DO NOTHING"
  else "HOLD"

/-- The single score-banding rationale line. -/
def scoreRationale (overall_score : ℚ) : String :=
  if overall_score ≥ 8.5 then "Very strong overall performance metrics."
  else if overall_score ≥ 7.0 then "Good overall performance metrics."
  else if overall_score ≤ 3.0 then "Poor overall performance metrics."
  else if overall_score ≤ 4.5 then "Below average performance metrics."
  else "Average overall performance metrics."

/-- Technical rationale lines (the `if technical_indicators:` block). -/
def techRationale (t : TechnicalIndicators) : List String :=
  (if t.rsi ≤ 30 then ["RSI indicates oversold conditions."]
   else if t.rsi ≥ 70 then ["RSI indicates overbought conditions."]
   else []) ++
  (if t.macd_bullish_cross then
     ["Recent MACD bullish crossover suggests upward momentum."]
   else if t.macd_bearish_cross then
     ["Recent MACD bearish crossover suggests downward momentum."]
   else []) ++
  (if t.is_uptrend then
     (if t.strong_trend then ["Strong uptrend in price action."]
      else ["Price is in an uptrend."])
   else
     (if t.strong_trend then ["Strong downtrend in price action."]
      else ["Price is in a downtrend."])) ++
  (if t.near_support then
     ["Price is near support level, potential bounce point."]
   else if t.near_resistance then
     ["Price is near resistance level, may face selling pressure."]
   else [])

/-- Fundamental rationale lines (the `if fundamental_data:` block). -/
def fundRationale (d : FundamentalData) : List String :=
  (match d.trailing_pe with
   | none => []
   | some pe =>
     if pe < 0 then ["Company has negative earnings (P/E)."]
     else if pe < 15 then ["P/E ratio suggests stock may be undervalued."]
     else if pe > 30 then ["High P/E ratio may indicate overvaluation."]
     else []) ++
  (match d.roe with
   | none => []
   | some roe =>
     if roe > 0.15 then
       ["Strong return on equity (ROE) indicates efficient use of capital."]
     else if roe < 0.05 then
       ["Low return on equity (ROE) suggests inefficient use of capital."]
     else [])

/-- News-sentiment rationale lines (the `if news_sentiment:` block). -/
def newsRationale (ns : SentimentSummary) : List String :=
  if ns.average_sentiment > 0.2 then ["Recent news sentiment is very positive."]
  else if ns.average_sentiment > 0.05 then ["Recent news sentiment is positive."]
  else if ns.average_sentiment < -0.2 then ["Recent news sentiment is very negative."]
  else if ns.average_sentiment < -0.05 then ["Recent news sentiment is negative."]
  else []

/-- The strong-buy override condition: oversold, near support, and news
sentiment present with average above `0.1`. -/
def buyOverrideCond (t : TechnicalIndicators) : Option SentimentSummary → Bool
  | some ns => t.is_oversold && t.near_support && decide (ns.average_sentiment > 0.1)
  | none => false

/-- The strong-sell override condition: overbought, near resistance, and news
sentiment present with average below `-0.1`. -/
def sellOverrideCond (t : TechnicalIndicators) : Option SentimentSummary → Bool
  | some ns => t.is_overbought && t.near_resistance && decide (ns.average_sentiment < -0.1)
  | none => false

/-- Embeds get_investment_advice: base recommendation from the overall score,
rationale blocks in source order, then the two override rules, which only run
when both the technical and the fundamental dicts are truthy. -/
def get_investment_advice (overall_score : ℚ)
    (technical_indicators : Option TechnicalIndicators)
    (fundamental_data : Option FundamentalData)
    (news_sentiment : Option SentimentSummary) : Advice :=
  let recommendation := baseRecommendation overall_score
  let rationale : List String :=
    [scoreRationale overall_score] ++
    (match technical_indicators with | some t => techRationale t | none => []) ++
    (match fundamental_data with | some d => fundRationale d | none => []) ++
    (match news_sentiment with | some ns => newsRationale ns | none => [])
  match technical_indicators, fundamental_data with
  | some t, some _ =>
    let buy := buyOverrideCond t news_sentiment
    let recommendation := if buy then "BUY" else recommendation
    let rationale := if buy then
        rationale ++
          ["Oversold conditions with positive news make this a potential buying opportunity."]
      else rationale
    let sell := sellOverrideCond t news_sentiment
    let recommendation := if sell then "SELL" else recommendation
    let rationale := if sell then
        rationale ++ ["Overbought conditions with negative news suggest taking profits."]
      else rationale
    { recommendation := recommendation, rationale := rationale }
  | _, _ => { recommendation := recommendation, rationale := rationale }

/-! ### Rounding facts -/

theorem pyRoundInt_intCast (n : ℤ) : pyRoundInt (n : ℚ) = n := by
  simp [pyRoundInt]

theorem pyRoundInt_eq (q : ℚ) (n : ℤ) (h : (n : ℚ) = q) : pyRoundInt q = n := by
  rw [← h, pyRoundInt_intCast]

/-- The function pyRoundInt rounds to a nearest integer: the distance is at most 1/2. -/
theorem abs_pyRoundInt_sub_le (q : ℚ) : |(pyRoundInt q : ℚ) - q| ≤ 1/2 := by
  have h1 : (⌊q⌋ : ℚ) ≤ q := Int.floor_le q
  have h2 : q < ⌊q⌋ + 1 := Int.lt_floor_add_one q
  simp only [pyRoundInt]
  split_ifs with hlt hgt heven <;> rw [abs_le] <;> push_cast <;>
    constructor <;> linarith

theorem abs_pyRound1_sub_le (q : ℚ) : |pyRound1 q - q| ≤ 1/20 := by
  have h := abs_pyRoundInt_sub_le (q * 10)
  rw [abs_le] at h ⊢
  unfold pyRound1
  constructor <;> linarith [h.1, h.2]

theorem pyRound1_tenth (q : ℚ) : ∃ k : ℤ, pyRound1 q = (k : ℚ) / 10 :=
  ⟨pyRoundInt (q * 10), rfl⟩

/-- C2: `calculate_overall_score` is the weighted sum `technical*0.4 +
fundamental*0.4 + sentiment*0.2` rounded to one decimal place (the result is a
multiple of 1/10 within 1/20 of the weighted sum), for all inputs, with no
failure mode and no re-clamping (out-of-range inputs pass straight through, as
`calculate_overall_score 12 12 12 = 12 > 10` shows); in particular
`calculate_overall_score (10,0,0) = 4.0`, `(5,5,5) = 5.0`, `(0,0,0) = 0.0`. -/
theorem C2_calculate_overall_score :
    (∀ t f s : ℚ, calculate_overall_score t f s =
      pyRound1 (t * 0.4 + f * 0.4 + s * 0.2)) ∧
    (∀ t f s : ℚ, ∃ k : ℤ, calculate_overall_score t f s = (k : ℚ) / 10 ∧
      |calculate_overall_score t f s - (t * 0.4 + f * 0.4 + s * 0.2)| ≤ 1/20) ∧
    calculate_overall_score 10 0 0 = 4.0 ∧
    calculate_overall_score 5 5 5 = 5.0 ∧
    calculate_overall_score 0 0 0 = 0.0 ∧
    calculate_overall_score 12 12 12 = 12 := by
  refine ⟨fun t f s => rfl,
    fun t f s => ⟨pyRoundInt ((t * 0.4 + f * 0.4 + s * 0.2) * 10), rfl,
      abs_pyRound1_sub_le (t * 0.4 + f * 0.4 + s * 0.2)⟩, ?_, ?_, ?_, ?_⟩ <;>
    unfold calculate_overall_score TECHNICAL_WEIGHT FUNDAMENTAL_WEIGHT
      NEWS_SENTIMENT_WEIGHT pyRound1 <;> norm_num
  · rw [pyRoundInt_eq 40 40 (by norm_num)]; norm_num
  · rw [pyRoundInt_eq 50 50 (by norm_num)]; norm_num
  · rw [pyRoundInt_eq 0 0 (by norm_num)]
  · rw [pyRoundInt_eq 120 120 (by norm_num)]; norm_num

/-! ### Advisory base recommendation -/

/-- C1: the base recommendation is the three-comparison chain, first true
branch wins: `overall ≥ 7 → BUY`, else `overall ≤ 4 → SELL`, else
`overall < 5.5 → DO NOTHING`, else `HOLD`; and this is what the advisory
engine returns when no override data is supplied. Boundary cases:
7.0 → BUY, 6.99 → HOLD, 5.49 → DO NOTHING, 4.0 → SELL. -/
theorem C1_base_recommendation :
    (∀ overall : ℚ,
      (get_investment_advice overall none none none).recommendation =
        baseRecommendation overall) ∧
    (∀ overall : ℚ, overall ≥ 7 → baseRecommendation overall = "BUY") ∧
    (∀ overall : ℚ, ¬(overall ≥ 7) → overall ≤ 4 →
      baseRecommendation overall = "SELL") ∧
    (∀ overall : ℚ, ¬(overall ≥ 7) → ¬(overall ≤ 4) → overall < 5.5 →
      baseRecommendation overall = "DO NOTHING") ∧
    (∀ overall : ℚ, ¬(overall ≥ 7) → ¬(overall ≤ 4) → ¬(overall < 5.5) →
      baseRecommendation overall = "HOLD") ∧
    baseRecommendation 7.0 = "BUY" ∧ baseRecommendation 6.99 = "HOLD" ∧
    baseRecommendation 5.49 = "DO NOTHING" ∧ baseRecommendation 4.0 = "SELL" := by
  have hbase : ∀ overall : ℚ,
      (get_investment_advice overall none none none).recommendation =
        baseRecommendation overall := fun overall => rfl
  refine ⟨hbase, ?_, ?_, ?_, ?_, ?_, ?_, ?_, ?_⟩ <;>
    unfold baseRecommendation BUY_THRESHOLD SELL_THRESHOLD HOLD_THRESHOLD <;>
    first
      | (intro overall h1; simp only [ge_iff_le] at *; split_ifs <;>
          first | rfl | linarith)
      | (intro overall h1 h2; simp only [ge_iff_le] at *; split_ifs <;>
          first | rfl | linarith)
      | (intro overall h1 h2 h3; simp only [ge_iff_le] at *; split_ifs <;>
          first | rfl | linarith)
      | norm_num

/-- Witness for C1 at `overall = 6.99`: the engine returns `HOLD`. -/
theorem C1_witness :
    (get_investment_advice 6.99 none none none).recommendation = "HOLD" := by
  have h1 := C1_base_recommendation.1 6.99
  have h5 := C1_base_recommendation.2.2.2.2.1 6.99 (by norm_num) (by norm_num)
    (by norm_num)
  rw [h1, h5]

/-! ### Empty-input defaults -/

/-- C6: on empty input the technical scorer returns exactly `0.0` while the
fundamental scorer returns exactly `5.0`; the two neutral defaults differ, and
both calls are total. -/
theorem C6_empty_defaults :
    analyze_technical none = 0.0 ∧ analyze_fundamental none = 5.0 ∧
    analyze_technical none ≠ analyze_fundamental none := by
  refine ⟨rfl, rfl, ?_⟩
  show (0.0 : ℚ) ≠ 5.0
  norm_num

/-! ### MACD cross antisymmetry -/

/-- C8: `macd_bull_cross` holds exactly when the MACD line was below the
signal on the second-to-last bar and above it on the last bar,
`macd_bear_cross` exactly in the mirrored case; on any bullish-cross two-bar
tail the bullish flag is true and the bearish flag false, and swapping the two
bars flips both flags. -/
theorem C8_macd_cross_antisymmetric :
    ∀ m2 s2 m1 s1 : ℚ,
      (macd_bull_cross m2 s2 m1 s1 = true ↔ m2 < s2 ∧ m1 > s1) ∧
      (macd_bear_cross m2 s2 m1 s1 = true ↔ m2 > s2 ∧ m1 < s1) ∧
      (m2 < s2 → m1 > s1 →
        macd_bull_cross m2 s2 m1 s1 = true ∧
        macd_bear_cross m2 s2 m1 s1 = false ∧
        macd_bull_cross m1 s1 m2 s2 = false ∧
        macd_bear_cross m1 s1 m2 s2 = true) := by
  intro m2 s2 m1 s1
  refine ⟨by simp [macd_bull_cross], by simp [macd_bear_cross], ?_⟩
  intro h1 h2
  refine ⟨?_, ?_, ?_, ?_⟩ <;> simp [macd_bull_cross, macd_bear_cross] <;>
    first
      | exact ⟨h1, h2⟩
      | exact ⟨h2, h1⟩
      | (intro h; linarith)

/-- Witness for C8 on the concrete two-bar tail
`(macd, signal) = (0, 1)` then `(2, 1)`. -/
theorem C8_witness :
    macd_bull_cross 0 1 2 1 = true ∧ macd_bear_cross 0 1 2 1 = false ∧
    macd_bull_cross 2 1 0 1 = false ∧ macd_bear_cross 2 1 0 1 = true :=
  (C8_macd_cross_antisymmetric 0 1 2 1).2.2 (by norm_num) (by norm_num)

/-! ### Technical scorer decomposition -/

theorem rsiStep_eq (score rsi : ℚ) :
    rsiStep score rsi =
      score + ((if rsi < 30 then (1.0:ℚ) else 0) + (if rsi > 70 then -1.0 else 0)) := by
  unfold rsiStep
  split_ifs <;> first | linarith | ring

theorem macdBullStep_eq (score : ℚ) (c : Bool) :
    macdBullStep score c = score + (if c then (1.0:ℚ) else 0) := by
  unfold macdBullStep; split_ifs <;> ring

theorem macdBearStep_eq (score : ℚ) (c : Bool) :
    macdBearStep score c = score + (if c then (-1.0:ℚ) else 0) := by
  unfold macdBearStep; split_ifs <;> ring

theorem trendStep_eq (score : ℚ) (u : Bool) :
    trendStep score u = score + (if u then (0.75:ℚ) else -0.75) := by
  unfold trendStep; split_ifs <;> ring

theorem supportStep_eq (score : ℚ) (b : Bool) :
    supportStep score b = score + (if b then (0.5:ℚ) else 0) := by
  unfold supportStep; split_ifs <;> ring

theorem resistanceStep_eq (score : ℚ) (b : Bool) :
    resistanceStep score b = score + (if b then (-0.5:ℚ) else 0) := by
  unfold resistanceStep; split_ifs <;> ring

theorem adxStep_eq (score adx : ℚ) (u : Bool) :
    adxStep score adx u =
      score + ((if adx > 25 ∧ u = true then (0.5:ℚ) else 0) +
               (if adx > 25 ∧ ¬(u = true) then (-0.5:ℚ) else 0)) := by
  unfold adxStep
  cases u <;> split_ifs <;> simp_all <;> ring

theorem perfStep_eq (score p : ℚ) :
    perfStep score p =
      score + (if p > 0 then 0.25 * min p 2 else -(0.25 * min |p| 2)) := by
  unfold perfStep
  split_ifs <;> ring

theorem volumeStep_eq (score : ℚ) (hv u : Bool) :
    volumeStep score hv u =
      score + ((if hv = true ∧ u = true then (0.5:ℚ) else 0) +
               (if hv = true ∧ ¬(u = true) then (-0.5:ℚ) else 0)) := by
  unfold volumeStep
  cases hv <;> cases u <;> simp <;> ring

/-- C4: for every non-empty IndicatorSet the technical scorer returns exactly
`clamp(5.0 + sum of the rule adjustments, 0, 10)` where the adjustments are the
independent rules of the spec table (`techAdjustments`), and the result always
lies in `[0, 10]`. -/
theorem C4_analyze_technical (t : TechnicalIndicators) :
    analyze_technical (some t) = max 0 (min (5.0 + techAdjustments t) 10) ∧
    0 ≤ analyze_technical (some t) ∧ analyze_technical (some t) ≤ 10 := by
  have key : analyze_technical (some t) = max 0 (min (5.0 + techAdjustments t) 10) := by
    show max 0 (min (volumeStep (perfStep (adxStep (resistanceStep (supportStep
        (trendStep (macdBearStep (macdBullStep (rsiStep 5.0 t.rsi)
          t.macd_bullish_cross) t.macd_bearish_cross) t.is_uptrend)
          t.near_support) t.near_resistance) t.adx t.is_uptrend)
          t.recent_performance) t.high_volume t.is_uptrend) 10) = _
    rw [rsiStep_eq, macdBullStep_eq, macdBearStep_eq, trendStep_eq,
      supportStep_eq, resistanceStep_eq, adxStep_eq, perfStep_eq, volumeStep_eq]
    unfold techAdjustments
    congr 2
    ring
  refine ⟨key, ?_, ?_⟩ <;> rw [key]
  · exact le_max_left 0 _
  · exact max_le (by norm_num) (min_le_right _ 10)

/-! ### Fundamental scorer decomposition -/

theorem peStep_eq (score : ℚ) (o : Option ℚ) :
    peStep score o = score + peContrib o := by
  cases o <;> simp only [peStep, peContrib] <;> (try split_ifs) <;> ring

theorem forwardPeStep_eq (score : ℚ) (f p : Option ℚ) :
    forwardPeStep score f p = score + forwardPeContrib f p := by
  cases f <;> cases p <;> simp only [forwardPeStep, forwardPeContrib] <;>
    (try split_ifs) <;> ring

theorem pbStep_eq (score : ℚ) (o : Option ℚ) :
    pbStep score o = score + pbContrib o := by
  cases o <;> simp only [pbStep, pbContrib] <;> (try split_ifs) <;> ring

theorem roeStep_eq (score : ℚ) (o : Option ℚ) :
    roeStep score o = score + roeContrib o := by
  cases o <;> simp only [roeStep, roeContrib] <;> (try split_ifs) <;> ring

theorem marginStep_eq (score : ℚ) (o : Option ℚ) :
    marginStep score o = score + marginContrib o := by
  cases o <;> simp only [marginStep, marginContrib] <;> (try split_ifs) <;> ring

theorem divYieldStep_eq (score : ℚ) (o : Option ℚ) :
    divYieldStep score o = score + divYieldContrib o := by
  cases o <;> simp only [divYieldStep, divYieldContrib] <;> (try split_ifs) <;> ring

theorem debtStep_eq (score : ℚ) (o : Option ℚ) :
    debtStep score o = score + debtContrib o := by
  cases o <;> simp only [debtStep, debtContrib] <;> (try split_ifs) <;> ring

theorem currentRatioStep_eq (score : ℚ) (o : Option ℚ) :
    currentRatioStep score o = score + currentRatioContrib o := by
  cases o <;> simp only [currentRatioStep, currentRatioContrib] <;>
    (try split_ifs) <;> ring

theorem betaStep_eq (score : ℚ) (o : Option ℚ) :
    betaStep score o = score + betaContrib o := by
  cases o <;> simp only [betaStep, betaContrib] <;> (try split_ifs) <;> ring

/-- C5: for every non-empty FundamentalsRecord the fundamental scorer returns
exactly `clamp(5.0 + sum of the per-metric contributions, 0, 10)`; each
contribution is zero when its metric is absent, a dividend yield strictly
between 0 and 0.01 contributes `-0.25` while an absent yield or a yield of
exactly 0 contributes nothing, and the forward-vs-trailing P/E contribution is
zero unless both are present. -/
theorem C5_analyze_fundamental :
    (∀ d : FundamentalData,
      analyze_fundamental (some d) = max 0 (min (5.0 + fundAdjustments d) 10) ∧
      0 ≤ analyze_fundamental (some d) ∧ analyze_fundamental (some d) ≤ 10) ∧
    divYieldContrib none = 0 ∧ divYieldContrib (some 0) = 0 ∧
    (∀ y : ℚ, 0 < y → y < 0.01 → divYieldContrib (some y) = -0.25) ∧
    (∀ f : Option ℚ, forwardPeContrib f none = 0) ∧
    (∀ p : ℚ, forwardPeContrib none (some p) = 0) := by
  have key : ∀ d : FundamentalData,
      analyze_fundamental (some d) = max 0 (min (5.0 + fundAdjustments d) 10) := by
    intro d
    show max 0 (min (betaStep (currentRatioStep (debtStep (divYieldStep
        (marginStep (roeStep (pbStep (forwardPeStep (peStep 5.0 d.trailing_pe)
          d.forward_pe d.trailing_pe) d.price_to_book) d.roe) d.profit_margins)
          d.dividend_yield) d.debt_to_equity) d.current_ratio) d.beta) 10) = _
    rw [peStep_eq, forwardPeStep_eq, pbStep_eq, roeStep_eq, marginStep_eq,
      divYieldStep_eq, debtStep_eq, currentRatioStep_eq, betaStep_eq]
    unfold fundAdjustments
    congr 2
    ring
  refine ⟨fun d => ⟨key d, ?_, ?_⟩, rfl, ?_, ?_, ?_, ?_⟩
  · rw [key d]; exact le_max_left 0 _
  · rw [key d]; exact max_le (by norm_num) (min_le_right _ 10)
  · simp only [divYieldContrib]
    norm_num
  · intro y h1 h2
    simp only [divYieldContrib]
    rw [if_neg (by linarith), if_pos ⟨h1, h2⟩]
  · intro f; cases f <;> rfl
  · intro p; rfl

/-- Witness for C5: a record whose only present metric is a dividend yield of
`1/200 = 0.005 ∈ (0, 0.01)` scores `5.0 - 0.25 = 4.75`. -/
theorem C5_witness :
    divYieldContrib (some (1/200)) = -0.25 ∧
    analyze_fundamental
      (some ⟨none, none, none, none, none, none, some (1/200), none, none,
        none, none⟩) = 4.75 := by
  refine ⟨C5_analyze_fundamental.2.2.2.1 (1/200) (by norm_num) (by norm_num), ?_⟩
  rw [(C5_analyze_fundamental.1
    ⟨none, none, none, none, none, none, some (1/200), none, none, none,
      none⟩).1]
  rw [show fundAdjustments
      ⟨none, none, none, none, none, none, some (1/200), none, none, none,
        none⟩ = -0.25 by
    simp only [fundAdjustments, peContrib, forwardPeContrib, pbContrib,
      roeContrib, marginContrib, divYieldContrib, debtContrib,
      currentRatioContrib, betaContrib]
    norm_num]
  norm_num

/-! ### Sentiment aggregator -/

/-- Full characterisation of the sentiment loop: the scored dicts and compound
scores accumulate in input order and each counter counts its category. -/
theorem foldl_processArticle (polarity : String → ℚ) (arts : List NewsArticle)
    (st : SentimentLoopState) :
    arts.foldl (processArticle polarity) st =
      { sentiment_results :=
          st.sentiment_results ++ arts.map (scoreArticle polarity),
        compound_scores :=
          st.compound_scores ++ arts.map (fun a => polarity (articleText a)),
        positive := st.positive + (arts.filter
          (fun a => categorize (polarity (articleText a)) == "positive")).length,
        negative := st.negative + (arts.filter
          (fun a => categorize (polarity (articleText a)) == "negative")).length,
        neutral := st.neutral + (arts.filter
          (fun a => categorize (polarity (articleText a)) == "neutral")).length } := by
  induction arts generalizing st with
  | nil => simp
  | cons a rest ih =>
    rw [List.foldl_cons, ih]
    simp only [processArticle]
    split_ifs with h1 h2
    · simp [scoreArticle, categorize, h1, List.filter_cons, List.append_assoc] <;>
        omega
    · simp [scoreArticle, categorize, h1, h2, List.filter_cons,
        List.append_assoc] <;> omega
    · simp [scoreArticle, categorize, h1, h2, List.filter_cons,
        List.append_assoc] <;> omega


/-- Closed form of analyze_sentiment on a non-empty list. -/
theorem analyze_sentiment_of_ne_nil (polarity : String → ℚ)
    (arts : List NewsArticle) (h : arts ≠ []) :
    analyze_sentiment polarity arts =
      { articles := arts.map (scoreArticle polarity),
        average_sentiment :=
          (arts.map fun a => polarity (articleText a)).sum / (arts.length : ℚ),
        sentiment_score := 5 +
          ((arts.map fun a => polarity (articleText a)).sum / (arts.length : ℚ)) * 5,
        positive := (arts.filter
          (fun a => categorize (polarity (articleText a)) == "positive")).length,
        negative := (arts.filter
          (fun a => categorize (polarity (articleText a)) == "negative")).length,
        neutral := (arts.filter
          (fun a => categorize (polarity (articleText a)) == "neutral")).length } := by
  cases arts with
  | nil => exact absurd rfl h
  | cons a rest =>
    simp only [analyze_sentiment, List.isEmpty_cons, Bool.false_eq_true,
      if_false, foldl_processArticle]
    simp

theorem filter_categorize_partition (polarity : String → ℚ)
    (arts : List NewsArticle) :
    (arts.filter
      (fun a => categorize (polarity (articleText a)) == "positive")).length +
    (arts.filter
      (fun a => categorize (polarity (articleText a)) == "negative")).length +
    (arts.filter
      (fun a => categorize (polarity (articleText a)) == "neutral")).length =
      arts.length := by
  induction arts with
  | nil => simp
  | cons a rest ih =>
    by_cases h1 : polarity (articleText a) ≥ 0.05
    · have hc : categorize (polarity (articleText a)) = "positive" := by
        simp [categorize, h1]
      simp only [List.filter_cons, hc]
      simp
      omega
    · by_cases h2 : polarity (articleText a) ≤ -0.05
      · have hc : categorize (polarity (articleText a)) = "negative" := by
          simp [categorize, h1, h2]
        simp only [List.filter_cons, hc]
        simp
        omega
      · have hc : categorize (polarity (articleText a)) = "neutral" := by
          simp [categorize, h1, h2]
        simp only [List.filter_cons, hc]
        simp
        omega


/-- C7: on an empty article list the aggregator returns the neutral summary
(average 0, score 5.0, zero counts, empty article list); on a non-empty list
the average sentiment is the arithmetic mean of the compound scores, the
sentiment score is `5 + average * 5`, the scored articles are the input
articles scored in order, and an article is categorised positive when its
compound is `≥ 0.05`, negative when `≤ -0.05`, neutral otherwise. -/
theorem C7_analyze_sentiment :
    (∀ polarity : String → ℚ, analyze_sentiment polarity [] =
      { articles := [], average_sentiment := 0, sentiment_score := 5.0,
        positive := 0, negative := 0, neutral := 0 }) ∧
    (∀ (polarity : String → ℚ) (arts : List NewsArticle), arts ≠ [] →
      (analyze_sentiment polarity arts).average_sentiment =
        (arts.map fun a => polarity (articleText a)).sum / (arts.length : ℚ) ∧
      (analyze_sentiment polarity arts).sentiment_score =
        5 + (analyze_sentiment polarity arts).average_sentiment * 5 ∧
      (analyze_sentiment polarity arts).articles =
        arts.map (scoreArticle polarity)) ∧
    (∀ c : ℚ, (c ≥ 0.05 → categorize c = "positive") ∧
      (c ≤ -0.05 → categorize c = "negative") ∧
      (¬(c ≥ 0.05) → ¬(c ≤ -0.05) → categorize c = "neutral")) := by
  refine ⟨fun polarity => rfl, ?_, ?_⟩
  · intro polarity arts h
    rw [analyze_sentiment_of_ne_nil polarity arts h]
    exact ⟨rfl, rfl, rfl⟩
  · intro c
    refine ⟨fun h => by simp [categorize, h], fun h => ?_, fun h1 h2 => ?_⟩
    · have : ¬(c ≥ 0.05) := by norm_num at *; linarith
      simp [categorize, this, h]
    · simp [categorize, h1, h2]

/-- Witness for C7: a single article whose compound polarity is 0.5 yields
sentiment score 7.5 and category "positive". -/
theorem C7_witness :
    (analyze_sentiment (fun _ => 0.5)
      [⟨"t", "d", "u", "p", "s"⟩]).sentiment_score = 7.5 ∧
    (analyze_sentiment (fun _ => 0.5) [⟨"t", "d", "u", "p", "s"⟩]).articles =
      [articleWithSentiment ⟨"t", "d", "u", "p", "s"⟩ "positive" 0.5] := by
  obtain ⟨h1, h2, h3⟩ := C7_analyze_sentiment.2.1 (fun _ => (0.5 : ℚ))
    [⟨"t", "d", "u", "p", "s"⟩] (by simp)
  have hc := (C7_analyze_sentiment.2.2 0.5).1 (by norm_num)
  constructor
  · rw [h2, h1]
    norm_num
  · rw [h3]
    simp [scoreArticle, hc]

/-- Counterexample to C9 as stated: the scored-article dict built by
the function analyze_sentiment has no description key, although the input
article had a present, non-empty description, so the scored article does not
retain all input fields. -/
theorem C9_counterexample :
    (⟨"Title", "Some description", "u", "p", "s"⟩ : NewsArticle).description =
      "Some description" ∧
    ((analyze_sentiment (fun _ => 0.5)
        [⟨"Title", "Some description", "u", "p", "s"⟩]).articles.headD
      []).lookup "description" = none := by
  refine ⟨rfl, ?_⟩
  rw [analyze_sentiment_of_ne_nil _ _ (by simp)]
  simp [scoreArticle, articleWithSentiment, List.lookup]

/-- C9 (amended): each scored article retains the input title, url,
published_at and source (but not its description, which is dropped), adds the
sentiment category and the compound score, and the scored-article list is the
input list scored in order. -/
theorem C9_scored_article_fields :
    ∀ (polarity : String → ℚ) (arts : List NewsArticle),
      (analyze_sentiment polarity arts).articles =
        arts.map (scoreArticle polarity) ∧
      ∀ a : NewsArticle,
        (scoreArticle polarity a).lookup "title" = some (Val.str a.title) ∧
        (scoreArticle polarity a).lookup "url" = some (Val.str a.url) ∧
        (scoreArticle polarity a).lookup "published_at" =
          some (Val.str a.published_at) ∧
        (scoreArticle polarity a).lookup "source" = some (Val.str a.source) ∧
        (scoreArticle polarity a).lookup "sentiment" =
          some (Val.str (categorize (polarity (articleText a)))) ∧
        (scoreArticle polarity a).lookup "sentiment_score" =
          some (Val.num (polarity (articleText a))) ∧
        (scoreArticle polarity a).lookup "description" = none := by
  intro polarity arts
  constructor
  · cases arts with
    | nil => rfl
    | cons a rest =>
      rw [analyze_sentiment_of_ne_nil polarity (a :: rest) (by simp)]
  · intro a
    simp [scoreArticle, articleWithSentiment, List.lookup]

/-- C10: for every non-empty article list the three counts partition the
input: each counter equals the number of articles whose category is its own,
positive + negative + neutral equals the input length, and the scored-article
list has the same length as the input. -/
theorem C10_counts_partition :
    ∀ (polarity : String → ℚ) (arts : List NewsArticle), arts ≠ [] →
      (analyze_sentiment polarity arts).positive +
          (analyze_sentiment polarity arts).negative +
          (analyze_sentiment polarity arts).neutral = arts.length ∧
      (analyze_sentiment polarity arts).articles.length = arts.length ∧
      (analyze_sentiment polarity arts).positive = (arts.filter
        (fun a => categorize (polarity (articleText a)) == "positive")).length ∧
      (analyze_sentiment polarity arts).negative = (arts.filter
        (fun a => categorize (polarity (articleText a)) == "negative")).length ∧
      (analyze_sentiment polarity arts).neutral = (arts.filter
        (fun a => categorize (polarity (articleText a)) == "neutral")).length := by
  intro polarity arts h
  rw [analyze_sentiment_of_ne_nil polarity arts h]
  refine ⟨filter_categorize_partition polarity arts, ?_, rfl, rfl, rfl⟩
  simp


/-- Witness for C10 on a concrete two-article list with one positive and one
negative article. -/
theorem C10_witness :
    (analyze_sentiment (fun t => if t = "a b" then (0.5 : ℚ) else -0.5)
        [⟨"a", "b", "u", "p", "s"⟩, ⟨"c", "d", "u", "p", "s"⟩]).positive +
      (analyze_sentiment (fun t => if t = "a b" then (0.5 : ℚ) else -0.5)
        [⟨"a", "b", "u", "p", "s"⟩, ⟨"c", "d", "u", "p", "s"⟩]).negative +
      (analyze_sentiment (fun t => if t = "a b" then (0.5 : ℚ) else -0.5)
        [⟨"a", "b", "u", "p", "s"⟩, ⟨"c", "d", "u", "p", "s"⟩]).neutral = 2 ∧
    (analyze_sentiment (fun t => if t = "a b" then (0.5 : ℚ) else -0.5)
        [⟨"a", "b", "u", "p", "s"⟩, ⟨"c", "d", "u", "p", "s"⟩]).positive = 1 ∧
    (analyze_sentiment (fun t => if t = "a b" then (0.5 : ℚ) else -0.5)
        [⟨"a", "b", "u", "p", "s"⟩, ⟨"c", "d", "u", "p", "s"⟩]).negative = 1 ∧
    (analyze_sentiment (fun t => if t = "a b" then (0.5 : ℚ) else -0.5)
        [⟨"a", "b", "u", "p", "s"⟩, ⟨"c", "d", "u", "p", "s"⟩]).neutral = 0 := by
  obtain ⟨hsum, hlen, hp, hn, hz⟩ := C10_counts_partition
    (fun t => if t = "a b" then (0.5 : ℚ) else -0.5)
    [⟨"a", "b", "u", "p", "s"⟩, ⟨"c", "d", "u", "p", "s"⟩] (by simp)
  have e1 : articleText ⟨"a", "b", "u", "p", "s"⟩ = "a b" := rfl
  have e2 : articleText ⟨"c", "d", "u", "p", "s"⟩ = "c d" := rfl
  have f1 : (if ("a b" : String) = "a b" then (0.5 : ℚ) else -0.5) = 0.5 :=
    if_pos rfl
  have f2 : (if ("c d" : String) = "a b" then (0.5 : ℚ) else -0.5) = -0.5 :=
    if_neg (by decide)
  have c1 : categorize (0.5 : ℚ) = "positive" := by norm_num [categorize]
  have c2 : categorize (-0.5 : ℚ) = "negative" := by norm_num [categorize]
  refine ⟨by rw [hsum]; rfl, ?_, ?_, ?_⟩
  · rw [hp]; simp [List.filter_cons, e1, e2, f1, f2, c1, c2]
  · rw [hn]; simp [List.filter_cons, e1, e2, f1, f2, c1, c2]
  · rw [hz]; simp [List.filter_cons, e1, e2, f1, f2, c1, c2]


/-! ### Advisory override rules -/

theorem getLast?_cons_appends {α : Type} (x : α) (A B C : List α) (a : α) :
    (x :: (A ++ (B ++ (C ++ [a])))).getLast? = some a := by
  rw [show x :: (A ++ (B ++ (C ++ [a]))) = (x :: (A ++ (B ++ C))) ++ [a] by
    simp]
  exact List.getLast?_concat _

/-- C3: with both technical and fundamental data present, oversold + near
support + average sentiment above 0.1 forces the recommendation to BUY and
appends the bullish-opportunity rationale line last; overbought + near
resistance + average sentiment below -0.1 forces SELL and appends the
bearish-warning line last — the SELL override is checked after the BUY one,
so it wins whenever its condition holds; if either the technical or the
fundamental dict is absent, the recommendation stays the score-based base
recommendation. -/
theorem C3_override_rules :
    (∀ (overall : ℚ) (t : TechnicalIndicators) (d : FundamentalData)
        (ns : SentimentSummary),
      t.is_oversold = true → t.near_support = true →
      ns.average_sentiment > 0.1 →
        (get_investment_advice overall (some t) (some d)
            (some ns)).recommendation = "BUY" ∧
        (get_investment_advice overall (some t) (some d)
            (some ns)).rationale.getLast? = some
          "Oversold conditions with positive news make this a potential buying opportunity.") ∧
    (∀ (overall : ℚ) (t : TechnicalIndicators) (d : FundamentalData)
        (ns : SentimentSummary),
      t.is_overbought = true → t.near_resistance = true →
      ns.average_sentiment < -0.1 →
        (get_investment_advice overall (some t) (some d)
            (some ns)).recommendation = "SELL" ∧
        (get_investment_advice overall (some t) (some d)
            (some ns)).rationale.getLast? = some
          "Overbought conditions with negative news suggest taking profits.") ∧
    (∀ (overall : ℚ) (d : Option FundamentalData)
        (ns : Option SentimentSummary),
      (get_investment_advice overall none d ns).recommendation =
        baseRecommendation overall) ∧
    (∀ (overall : ℚ) (t : TechnicalIndicators) (ns : Option SentimentSummary),
      (get_investment_advice overall (some t) none ns).recommendation =
        baseRecommendation overall) := by
  refine ⟨?_, ?_, ?_, ?_⟩
  · intro overall t d ns h1 h2 h3
    have hbuy : buyOverrideCond t (some ns) = true := by
      simp [buyOverrideCond, h1, h2, h3]
    have hsell : sellOverrideCond t (some ns) = false := by
      have hno : ¬(ns.average_sentiment < -0.1) := by linarith
      simp [sellOverrideCond, hno]
    constructor <;>
      simp [get_investment_advice, hbuy, hsell, getLast?_cons_appends]
  · intro overall t d ns h1 h2 h3
    have hsell : sellOverrideCond t (some ns) = true := by
      simp [sellOverrideCond, h1, h2, h3]
    constructor <;>
      simp [get_investment_advice, hsell, getLast?_cons_appends,
        List.getLast?_concat]
  · intro overall d ns
    cases d <;> rfl
  · intro overall t ns
    rfl

/-- Witness for C3: oversold + near support + sentiment average 0.2 forces
BUY even though the overall score 2.0 alone would give SELL. -/
theorem C3_witness :
    (get_investment_advice 2.0
      (some ⟨50, 0, 0, 0, 0, 0, 0, 0, 0, 0, 0, false, false, true, false,
        false, true, false, false, false⟩)
      (some ⟨none, none, none, none, none, none, none, none, none, none, none⟩)
      (some ⟨[], 0.2, 6.0, 0, 0, 0⟩)).recommendation = "BUY" :=
  (C3_override_rules.1 2.0 _ _ _ rfl rfl (by norm_num)).1


end StockAdvisor
